import Mathlib

/-
Verification of the QuantumShield password-strength front-end.

The component under study lives in src/unnamed/part_000 (the full
PasswordStrengthUI with telemetry feeds) and
src/frontend/src/components/PasswordStrengthUI.jsx (a near-duplicate second
front-end over the same pipeline).  The embedding below translates the
state-bearing logic: JS strings become Lean `String`, JS numbers become
`Int`/`Nat`, a `fetch` + `response.json()` round trip becomes an explicit
`FetchResult` value (either a thrown transport/decoding error message or the
decoded body), and each `useState` cell becomes a field of `AppState`.
A ghost field `calls` records every password sent to `POST /api/check` so
that claims about the number of remote calls are statable.
-/

namespace QuantumShield

/-- Strength state cell: `useState({ score: 0, feedback: [] })` (line 7). -/
structure Strength where
  score : Int
  feedback : List String
  deriving DecidableEq

/-- Decoded body of a `POST /api/check` response:
`{ score, strength, suggestions, error? }`.  `suggestions` is optional so
that a malformed body missing the array is representable. -/
structure CheckData where
  error : Option String
  score : Int
  strength : String
  suggestions : Option (List String)
  deriving DecidableEq

/-- Decoded body of a `GET /api/generate` response: `{ password, error? }`. -/
structure GenData where
  error : Option String
  password : String
  deriving DecidableEq

/-- Outcome of `await fetch(...)` followed by `await response.json()`:
either the decoded body, or a raised transport/decoding error carrying the
exception message. -/
inductive FetchResult (α : Type) where
  | fail (msg : String)
  | ok (data : α)
  deriving DecidableEq

/-- Truthiness of a JS optional string field: `undefined` and `""` are falsy. -/
def jsTruthy : Option String → Bool
  | none => false
  | some s => s != ""

/-- Component state relevant to the analysis/generation pipeline, together
with the ghost trace `calls` of passwords sent to `POST /api/check`. -/
structure AppState where
  password : String
  strength : Strength
  generated : String
  terminalLines : List String
  isAnalyzing : Bool
  calls : List String
  deriving DecidableEq

/-- Initial values of the `useState` cells (lines 6-11). -/
def initState : AppState :=
  { password := "", strength := ⟨0, []⟩, generated := "", terminalLines := [],
    isAnalyzing := false, calls := [] }

/-- Line 24: `["CRITICAL", "WEAK", "FAIR", "STRONG", "PERFECT"]`. -/
def strengthLabels : List String :=
  ["CRITICAL", "WEAK", "FAIR", "STRONG", "PERFECT"]

/-- JS array indexing `xs[i]` for a possibly negative or out-of-range index
(`undefined` becomes `none`). -/
def jsIndex (xs : List String) (i : Int) : Option String :=
  if i < 0 then none else xs.get? i.toNat

/-- Line 257: `strengthLabels[strength.score] || "CRITICAL"`.  Every table
entry is a nonempty (truthy) string, so `||` only replaces an out-of-range
`undefined` lookup. -/
def currentStrength (s : Strength) : String :=
  (jsIndex strengthLabels s.score).getD "CRITICAL"

/-- Lines 232-241: the local crack-time heuristic `calculateCrackTime`. -/
def calculateCrackTime (pwd : String) : String :=
  if pwd = "" then "Instant"
  else if pwd.length < 6 then "< 1 second"
  else if pwd.length < 8 then "< 1 minute"
  else if pwd.length < 10 then "< 1 hour"
  else if pwd.length < 12 then "< 1 day"
  else if pwd.length < 14 then "< 1 year"
  else "> 100 years"

/-- C1: the crack-time estimator is pure and bucketed by length exactly as in
the source, with each bucket's lower bound inclusive — but the labels carry a
space after the comparison sign (`"< 1 second"`, ..., `"> 100 years"`), not
the spec's spellings `"<1 second"` ... `">100 years"`. -/
theorem c1_crackTime_buckets (p : String) :
    calculateCrackTime "" = "Instant" ∧
    (p ≠ "" → p.length < 6 → calculateCrackTime p = "< 1 second") ∧
    (p ≠ "" → 6 ≤ p.length → p.length < 8 → calculateCrackTime p = "< 1 minute") ∧
    (p ≠ "" → 8 ≤ p.length → p.length < 10 → calculateCrackTime p = "< 1 hour") ∧
    (p ≠ "" → 10 ≤ p.length → p.length < 12 → calculateCrackTime p = "< 1 day") ∧
    (p ≠ "" → 12 ≤ p.length → p.length < 14 → calculateCrackTime p = "< 1 year") ∧
    (p ≠ "" → 14 ≤ p.length → calculateCrackTime p = "> 100 years") := by
  refine ⟨by decide, ?_, ?_, ?_, ?_, ?_, ?_⟩
  · intro hne h
    simp only [calculateCrackTime, if_neg hne, if_pos h]
  · intro hne h6 h8
    simp only [calculateCrackTime, if_neg hne,
      if_neg (by omega : ¬ p.length < 6), if_pos h8]
  · intro hne h8 h10
    simp only [calculateCrackTime, if_neg hne,
      if_neg (by omega : ¬ p.length < 6), if_neg (by omega : ¬ p.length < 8),
      if_pos h10]
  · intro hne h10 h12
    simp only [calculateCrackTime, if_neg hne,
      if_neg (by omega : ¬ p.length < 6), if_neg (by omega : ¬ p.length < 8),
      if_neg (by omega : ¬ p.length < 10), if_pos h12]
  · intro hne h12 h14
    simp only [calculateCrackTime, if_neg hne,
      if_neg (by omega : ¬ p.length < 6), if_neg (by omega : ¬ p.length < 8),
      if_neg (by omega : ¬ p.length < 10), if_neg (by omega : ¬ p.length < 12),
      if_pos h14]
  · intro hne h14
    simp only [calculateCrackTime, if_neg hne,
      if_neg (by omega : ¬ p.length < 6), if_neg (by omega : ¬ p.length < 8),
      if_neg (by omega : ¬ p.length < 10), if_neg (by omega : ¬ p.length < 12),
      if_neg (by omega : ¬ p.length < 14)]

/-- C1 witness: the boundary examples — length 8 lands in the `< 10` bucket,
lengths 6 and 7 in the `< 8` bucket. -/
theorem c1_crackTime_buckets_witness :
    calculateCrackTime "abcdefgh" = "< 1 hour" ∧
    calculateCrackTime "abcdef" = "< 1 minute" ∧
    calculateCrackTime "abcdefg" = "< 1 minute" :=
  ⟨(c1_crackTime_buckets "abcdefgh").2.2.2.1 (by decide) (by decide) (by decide),
   (c1_crackTime_buckets "abcdef").2.2.1 (by decide) (by decide) (by decide),
   (c1_crackTime_buckets "abcdefg").2.2.1 (by decide) (by decide) (by decide)⟩

/-- C1 counterexample: the claimed label `"<1 second"` is not what the code
returns for the length-5 password `"abcde"` — the code's label has a space
after the sign. -/
theorem c1_crackTime_counterexample :
    calculateCrackTime "abcde" = "< 1 second" ∧
    calculateCrackTime "abcde" ≠ "<1 second" := by
  decide

/-- Lines 79-82: the fixed catalog of common weak passwords. -/
def weakPasswordDatabase : List String :=
  ["password", "123456", "password123", "admin", "qwerty", "letmein",
   "welcome", "monkey", "dragon", "master", "superman", "batman"]

/-- Substring scan underlying JS `hay.includes(need)`: test `need` as a
prefix at every position of `hay`. -/
def jsIncludesAux : List Char → List Char → Bool
  | _, [] => true
  | [], _ :: _ => false
  | a :: t, n :: ns => List.isPrefixOf (n :: ns) (a :: t) || jsIncludesAux t (n :: ns)

/-- JS `hay.includes(need)` on the underlying character sequences. -/
def jsIncludes (hay need : String) : Bool :=
  jsIncludesAux hay.toList need.toList

/-- JS `s.toLowerCase()` (ASCII-faithful), computed characterwise on the
underlying sequence. -/
def jsToLower (s : String) : String :=
  String.mk (s.toList.map Char.toLower)

/-- Lines 153-155: `weakPasswordDatabase.some(weak =>
pwd.toLowerCase().includes(weak.toLowerCase()))`. -/
def isWeak (pwd : String) : Bool :=
  weakPasswordDatabase.any fun weak => jsIncludes (jsToLower pwd) (jsToLower weak)

/-- Masked rendering of the analyzed password (line 150 uses
`'•'.repeat(pwd.length)`). -/
def bulletMask (n : Nat) : String :=
  String.mk (List.replicate n '•')

/-- Line 150 log line. -/
def analyzingLine (pwd : String) : String :=
  "$ ANALYZING: " ++ (if pwd = "" then "EMPTY" else bulletMask pwd.length)

/-- Line 158 log line. -/
def breachWarnLine : String :=
  "⚠ WARNING: Password found in breach database!"

/-- Line 170 log line. -/
def analysisFailLine (e : String) : String :=
  "✗ ANALYSIS FAILED: " ++ e

/-- Line 191 log line. -/
def connectionFailLine (msg : String) : String :=
  "✗ CONNECTION FAILED: " ++ msg

/-- Message of the TypeError raised by `data.suggestions.slice(0, 3)` on line
187 when the decoded body carries no `suggestions` array. -/
def sliceOfUndefinedMsg : String :=
  "Cannot read properties of undefined (reading 'slice')"

/-- Line 184 log line. -/
def completeLine (d : CheckData) : String :=
  "✓ ANALYSIS COMPLETE: " ++ d.strength ++ " (" ++ toString d.score ++ "/4)"

/-- Line 185 log line. -/
def crackTimeLine (pwd : String) : String :=
  "⏱ Crack Time: " ++ calculateCrackTime pwd

/-- Line 186 log line. -/
def protectionLine (d : CheckData) : String :=
  "🛡 Protection Level: " ++ (if d.score ≥ 3 then "SECURE" else "VULNERABLE")

/-- Line 187 suggestion line. -/
def suggestionLine (s : String) : String :=
  "→ " ++ s

/-- Lines 147-196: one analysis cycle of the part_000 variant.  The outcome
of the remote call is passed in as `resp`; the password sent to
`POST /api/check` is recorded in the ghost trace `calls`.  When the decoded
body has no `suggestions` array the success path first stores the new
strength (line 174) and then raises at `data.suggestions.slice(0, 3)`
(line 187), landing in the catch block. -/
def checkPasswordStrength (pwd : String) (resp : FetchResult CheckData)
    (st : AppState) : AppState :=
  let st1 := { st with isAnalyzing := true,
                       terminalLines := st.terminalLines ++ [analyzingLine pwd] }
  let st2 := if isWeak pwd
    then { st1 with terminalLines := st1.terminalLines ++ [breachWarnLine] }
    else st1
  let st3 := { st2 with calls := st2.calls ++ [pwd] }
  let st4 :=
    match resp with
    | .fail msg =>
        { st3 with terminalLines := st3.terminalLines ++ [connectionFailLine msg] }
    | .ok data =>
        if jsTruthy data.error then
          { st3 with terminalLines :=
              st3.terminalLines ++ [analysisFailLine (data.error.getD "")] }
        else
          let st5 := { st3 with strength := ⟨data.score, data.suggestions.getD []⟩ }
          match data.suggestions with
          | none =>
              { st5 with terminalLines :=
                  st5.terminalLines ++ [connectionFailLine sliceOfUndefinedMsg] }
          | some suggs =>
              { st5 with terminalLines :=
                  st5.terminalLines ++
                    [completeLine data, crackTimeLine pwd, protectionLine data] ++
                    (suggs.take 3).map suggestionLine }
  { st4 with isAnalyzing := false }

/-- Lines 244-254: body of the analysis `useEffect` when the 500ms debounce
timer fires.  On empty text the strength is reset; nothing is logged and no
remote call is issued. -/
def debounceFire (resp : FetchResult CheckData) (st : AppState) : AppState :=
  if st.password ≠ "" then checkPasswordStrength st.password resp st
  else { st with strength := ⟨0, []⟩ }

/-- PasswordStrengthUI.jsx line 28 log line of the second variant. -/
def analyzingLineUI (pwd : String) : String :=
  "$ ANALYZING PASSWORD: " ++ (if pwd = "" then "EMPTY" else "****") ++
    " → CONNECTED TO BACKEND"

/-- PasswordStrengthUI.jsx lines 25-62: the analysis cycle of the second
variant (no weak-pattern precheck, different log texts, same control flow —
including the raise at `data.suggestions.slice(0, 3)` on line 53 when the
body has no `suggestions` array). -/
def checkPasswordStrengthUI (pwd : String) (resp : FetchResult CheckData)
    (st : AppState) : AppState :=
  let st1 := { st with isAnalyzing := true,
                       terminalLines := st.terminalLines ++ [analyzingLineUI pwd] }
  let st2 := { st1 with calls := st1.calls ++ [pwd] }
  let st3 :=
    match resp with
    | .fail msg =>
        { st2 with terminalLines :=
            st2.terminalLines ++ ["$ CONNECTION FAILED: " ++ msg] }
    | .ok data =>
        if jsTruthy data.error then
          { st2 with terminalLines :=
              st2.terminalLines ++ ["$ ANALYSIS FAILED: " ++ data.error.getD ""] }
        else
          let st4 := { st2 with strength := ⟨data.score, data.suggestions.getD []⟩ }
          match data.suggestions with
          | none =>
              { st4 with terminalLines :=
                  st4.terminalLines ++
                    ["$ CONNECTION FAILED: " ++ sliceOfUndefinedMsg] }
          | some suggs =>
              { st4 with terminalLines :=
                  st4.terminalLines ++
                    ["$ ANALYSIS COMPLETE: " ++ data.strength ++ " (" ++
                       toString data.score ++ "/4)",
                     "$ THREAT LEVEL: " ++ data.strength] ++
                    (suggs.take 3).map (fun s => "$ RECOMMENDATION: " ++ s) }
  { st3 with isAnalyzing := false }

/-- PasswordStrengthUI.jsx lines 93-104: debounce fire of the second variant;
clearing the text also logs `$ PASSWORD CLEARED`. -/
def debounceFireUI (resp : FetchResult CheckData) (st : AppState) : AppState :=
  if st.password ≠ "" then checkPasswordStrengthUI st.password resp st
  else { st with strength := ⟨0, []⟩,
                 terminalLines := st.terminalLines ++ ["$ PASSWORD CLEARED"] }

/-- Line 200 log line. -/
def genStartLine : String :=
  "$ GENERATING QUANTUM-SAFE PASSWORD..."

/-- Lines 206 and 223 log line. -/
def genFailLine (e : String) : String :=
  "✗ GENERATION FAILED: " ++ e

/-- Rendering of `(n * 6.5).toFixed(1)` (line 218).  A natural number times
6.5 always has exactly one significant decimal digit, so the value is
computed exactly over the integers. -/
def entropyStr (n : Nat) : String :=
  toString (n * 65 / 10) ++ "." ++ toString (n * 65 % 10)

/-- Lines 198-225: one `generate()` cycle of the part_000 variant.  On the
success path the generated value and the password text are both set to the
collaborator's password before the success lines are logged. -/
def generateSecurePassword (resp : FetchResult GenData) (st : AppState) :
    AppState :=
  let st1 := { st with terminalLines := st.terminalLines ++ [genStartLine] }
  match resp with
  | .fail msg =>
      { st1 with terminalLines := st1.terminalLines ++ [genFailLine msg] }
  | .ok data =>
      if jsTruthy data.error then
        { st1 with terminalLines :=
            st1.terminalLines ++ [genFailLine (data.error.getD "")] }
      else
        { st1 with
            generated := data.password,
            password := data.password,
            terminalLines := st1.terminalLines ++
              ["✓ PASSWORD GENERATED",
               "📏 Length: " ++ toString data.password.length ++ " characters",
               "💪 Entropy: " ++ entropyStr data.password.length ++ " bits",
               "🛡 Strength: MAXIMUM"] }

/-- Externally triggered transitions of the analyzer state: a user keystroke
(`setPassword` from the input's onChange), a debounce-timer firing with the
outcome of its remote call, and a `generate()` click with the outcome of its
remote call. -/
inductive Event where
  | keystroke (p : String)
  | debounce (resp : FetchResult CheckData)
  | generate (resp : FetchResult GenData)
  deriving DecidableEq

/-- Apply one event to the component state. -/
def applyEvent (st : AppState) : Event → AppState
  | .keystroke p => { st with password := p }
  | .debounce resp => debounceFire resp st
  | .generate resp => generateSecurePassword resp st

/-- Replay a sequence of events. -/
def run (st : AppState) (evs : List Event) : AppState :=
  evs.foldl applyEvent st

/-- An event is a `generate()` whose response took the success path of
lines 210-220. -/
def genSucceeds : Event → Bool
  | .generate (.ok d) => !(jsTruthy d.error)
  | _ => false

/-- Strength value after one part_000 analysis cycle, as a function of the
response and the prior strength only. -/
def strengthAfter (resp : FetchResult CheckData) (prior : Strength) : Strength :=
  match resp with
  | .fail _ => prior
  | .ok data =>
      if jsTruthy data.error then prior
      else ⟨data.score, data.suggestions.getD []⟩

/-- Log lines produced after the remote call of one part_000 analysis cycle. -/
def responseLines (pwd : String) : FetchResult CheckData → List String
  | .fail msg => [connectionFailLine msg]
  | .ok data =>
      if jsTruthy data.error then [analysisFailLine (data.error.getD "")]
      else
        match data.suggestions with
        | none => [connectionFailLine sliceOfUndefinedMsg]
        | some suggs =>
            [completeLine data, crackTimeLine pwd, protectionLine data] ++
              (suggs.take 3).map suggestionLine

theorem checkPasswordStrength_strength (pwd : String)
    (resp : FetchResult CheckData) (st : AppState) :
    (checkPasswordStrength pwd resp st).strength = strengthAfter resp st.strength := by
  cases resp with
  | fail msg =>
      cases h : isWeak pwd <;> simp [checkPasswordStrength, strengthAfter, h]
  | ok data =>
      cases h : isWeak pwd <;> cases he : jsTruthy data.error <;>
        cases hs : data.suggestions <;>
        simp [checkPasswordStrength, strengthAfter, h, he, hs]

theorem checkPasswordStrength_lines (pwd : String)
    (resp : FetchResult CheckData) (st : AppState) :
    (checkPasswordStrength pwd resp st).terminalLines =
      st.terminalLines ++ [analyzingLine pwd] ++
        (if isWeak pwd then [breachWarnLine] else []) ++ responseLines pwd resp := by
  cases resp with
  | fail msg =>
      cases h : isWeak pwd <;>
        simp [checkPasswordStrength, responseLines, h, List.append_assoc]
  | ok data =>
      cases h : isWeak pwd <;> cases he : jsTruthy data.error <;>
        cases hs : data.suggestions <;>
        simp [checkPasswordStrength, responseLines, h, he, hs, List.append_assoc]

theorem checkPasswordStrength_calls (pwd : String)
    (resp : FetchResult CheckData) (st : AppState) :
    (checkPasswordStrength pwd resp st).calls = st.calls ++ [pwd] := by
  cases resp with
  | fail msg =>
      cases h : isWeak pwd <;> simp [checkPasswordStrength, h]
  | ok data =>
      cases h : isWeak pwd <;> cases he : jsTruthy data.error <;>
        cases hs : data.suggestions <;> simp [checkPasswordStrength, h, he, hs]

theorem checkPasswordStrength_generated (pwd : String)
    (resp : FetchResult CheckData) (st : AppState) :
    (checkPasswordStrength pwd resp st).generated = st.generated := by
  cases resp with
  | fail msg =>
      cases h : isWeak pwd <;> simp [checkPasswordStrength, h]
  | ok data =>
      cases h : isWeak pwd <;> cases he : jsTruthy data.error <;>
        cases hs : data.suggestions <;> simp [checkPasswordStrength, h, he, hs]

theorem checkPasswordStrength_isAnalyzing (pwd : String)
    (resp : FetchResult CheckData) (st : AppState) :
    (checkPasswordStrength pwd resp st).isAnalyzing = false := by
  cases resp with
  | fail msg =>
      cases h : isWeak pwd <;> simp [checkPasswordStrength, h]
  | ok data =>
      cases h : isWeak pwd <;> cases he : jsTruthy data.error <;>
        cases hs : data.suggestions <;> simp [checkPasswordStrength, h, he, hs]

/-- C2 (amended): when the debounce timer fires on empty password text, both
variants synchronously reset strength to `{score: 0, feedback: []}` and issue
no remote `/api/check` call; the PasswordStrengthUI.jsx variant additionally
appends the `$ PASSWORD CLEARED` log line, while the part_000 variant appends
no log line at all. -/
theorem c2_empty_fire (st : AppState) (resp : FetchResult CheckData)
    (h : st.password = "") :
    debounceFire resp st = { st with strength := ⟨0, []⟩ } ∧
    (debounceFire resp st).calls = st.calls ∧
    (debounceFire resp st).terminalLines = st.terminalLines ∧
    debounceFireUI resp st =
      { st with strength := ⟨0, []⟩,
                terminalLines := st.terminalLines ++ ["$ PASSWORD CLEARED"] } ∧
    (debounceFireUI resp st).calls = st.calls := by
  simp [debounceFire, debounceFireUI, h]

/-- C2 witness: firing on the initial (empty) state under a would-be
transport failure. -/
theorem c2_empty_fire_witness :
    debounceFire (FetchResult.fail "network down") initState =
      { initState with strength := ⟨0, []⟩ } ∧
    debounceFireUI (FetchResult.fail "network down") initState =
      { initState with strength := ⟨0, []⟩,
                       terminalLines := ["$ PASSWORD CLEARED"] } := by
  have h := c2_empty_fire initState (FetchResult.fail "network down") rfl
  exact ⟨h.1, by simpa using h.2.2.2.1⟩

/-- C2 counterexample: in the part_000 variant the debounce firing on empty
text appends no log line to the terminal log, contrary to the claim. -/
theorem c2_counterexample :
    initState.password = "" ∧
    (debounceFire (FetchResult.fail "x") initState).terminalLines =
      initState.terminalLines := by
  decide

/-- C3 (amended): every failing analysis cycle appends a failure log line and
ends normally with the analyzing flag cleared; the strength is left unchanged
for a response carrying a (nonempty) error field and for a transport/JSON
failure, but a decoded response lacking the `suggestions` array has already
set the strength to `{score, []}` (line 174) when the decoding failure raised
at `data.suggestions.slice` is caught and logged. -/
theorem c3_failure_cycles (pwd : String) (st : AppState) :
    (∀ msg : String,
       (checkPasswordStrength pwd (.fail msg) st).strength = st.strength ∧
       (checkPasswordStrength pwd (.fail msg) st).terminalLines =
         st.terminalLines ++ [analyzingLine pwd] ++
           (if isWeak pwd then [breachWarnLine] else []) ++
           [connectionFailLine msg] ∧
       (checkPasswordStrength pwd (.fail msg) st).isAnalyzing = false) ∧
    (∀ data : CheckData, jsTruthy data.error = true →
       (checkPasswordStrength pwd (.ok data) st).strength = st.strength ∧
       (checkPasswordStrength pwd (.ok data) st).terminalLines =
         st.terminalLines ++ [analyzingLine pwd] ++
           (if isWeak pwd then [breachWarnLine] else []) ++
           [analysisFailLine (data.error.getD "")] ∧
       (checkPasswordStrength pwd (.ok data) st).isAnalyzing = false) ∧
    (∀ data : CheckData, jsTruthy data.error = false → data.suggestions = none →
       (checkPasswordStrength pwd (.ok data) st).strength = ⟨data.score, []⟩ ∧
       (checkPasswordStrength pwd (.ok data) st).terminalLines =
         st.terminalLines ++ [analyzingLine pwd] ++
           (if isWeak pwd then [breachWarnLine] else []) ++
           [connectionFailLine sliceOfUndefinedMsg] ∧
       (checkPasswordStrength pwd (.ok data) st).isAnalyzing = false) := by
  refine ⟨?_, ?_, ?_⟩
  · intro msg
    refine ⟨?_, ?_, checkPasswordStrength_isAnalyzing pwd _ st⟩
    · rw [checkPasswordStrength_strength]
      rfl
    · rw [checkPasswordStrength_lines]
      rfl
  · intro data he
    refine ⟨?_, ?_, checkPasswordStrength_isAnalyzing pwd _ st⟩
    · rw [checkPasswordStrength_strength]
      simp [strengthAfter, he]
    · rw [checkPasswordStrength_lines]
      simp [responseLines, he]
  · intro data he hs
    refine ⟨?_, ?_, checkPasswordStrength_isAnalyzing pwd _ st⟩
    · rw [checkPasswordStrength_strength]
      simp [strengthAfter, he, hs]
    · rw [checkPasswordStrength_lines]
      simp [responseLines, he, hs]

/-- C3 witness: concrete instances of the three failure paths. -/
theorem c3_failure_cycles_witness :
    (checkPasswordStrength "Zq8!r" (FetchResult.fail "ECONNREFUSED")
        initState).strength = initState.strength ∧
    (checkPasswordStrength "Zq8!r"
        (FetchResult.ok ⟨some "rate limited", 0, "", some []⟩)
        initState).strength = initState.strength ∧
    (checkPasswordStrength "Zq8!r"
        (FetchResult.ok ⟨none, 3, "STRONG", none⟩)
        initState).strength = ⟨3, []⟩ := by
  have h := c3_failure_cycles "Zq8!r" initState
  exact ⟨(h.1 "ECONNREFUSED").1,
         (h.2.1 ⟨some "rate limited", 0, "", some []⟩ (by decide)).1,
         (h.2.2 ⟨none, 3, "STRONG", none⟩ (by decide) rfl).1⟩

/-- C3 counterexample: a decoded response with a score but no `suggestions`
array — classified by the claim as a decoding failure that must leave the
strength unchanged — does change the stored strength. -/
theorem c3_counterexample :
    (checkPasswordStrength "abcdef12"
        (FetchResult.ok ⟨none, 3, "STRONG", none⟩) initState).strength ≠
      initState.strength := by
  decide

/-- C4 (amended): the score stored after processing a successful scoring
response is exactly the response's score — no clamping is applied, so it lies
in [0,4] only when the response's score does — and the displayed label is
obtained by indexing `["CRITICAL","WEAK","FAIR","STRONG","PERFECT"]` with the
score, defaulting to `"CRITICAL"` for every out-of-range index. -/
theorem c4_score_and_labels (st : AppState) (pwd : String) (data : CheckData)
    (he : jsTruthy data.error = false) :
    (checkPasswordStrength pwd (.ok data) st).strength.score = data.score ∧
    (∀ (fb : List String) (s : Int), s < 0 ∨ 4 < s →
        currentStrength ⟨s, fb⟩ = "CRITICAL") ∧
    (∀ fb : List String, currentStrength ⟨0, fb⟩ = "CRITICAL") ∧
    (∀ fb : List String, currentStrength ⟨1, fb⟩ = "WEAK") ∧
    (∀ fb : List String, currentStrength ⟨2, fb⟩ = "FAIR") ∧
    (∀ fb : List String, currentStrength ⟨3, fb⟩ = "STRONG") ∧
    (∀ fb : List String, currentStrength ⟨4, fb⟩ = "PERFECT") := by
  refine ⟨?_, ?_, fun fb => rfl, fun fb => rfl, fun fb => rfl,
          fun fb => rfl, fun fb => rfl⟩
  · rw [checkPasswordStrength_strength]
    cases hs : data.suggestions <;> simp [strengthAfter, he, hs]
  · intro fb s hs
    rcases hs with hs | hs
    · simp [currentStrength, jsIndex, hs]
    · have hneg : ¬ s < 0 := by omega
      have hlen : strengthLabels.length ≤ s.toNat := by
        simp only [strengthLabels, List.length]
        omega
      simp [currentStrength, jsIndex, hneg, List.getElem?_eq_none hlen]

/-- C4 witness: a response score of 2 is stored verbatim. -/
theorem c4_score_and_labels_witness :
    (checkPasswordStrength "x"
        (FetchResult.ok ⟨none, 2, "FAIR", some []⟩) initState).strength.score = 2 :=
  (c4_score_and_labels initState "x" ⟨none, 2, "FAIR", some []⟩ (by decide)).1

/-- C4 counterexample: a response carrying score 7 is stored as 7, outside
the claimed clamped range [0,4]. -/
theorem c4_counterexample :
    (checkPasswordStrength "abcdefgh"
        (FetchResult.ok ⟨none, 7, "X", some []⟩) initState).strength.score = 7 ∧
    ¬ ((0 : Int) ≤ 7 ∧ (7 : Int) ≤ 4) := by
  decide

theorem jsIncludesAux_iff :
    ∀ hay need : List Char,
      jsIncludesAux hay need = true ↔ ∃ pre post, pre ++ need ++ post = hay := by
  intro hay
  induction hay with
  | nil =>
      intro need
      cases need with
      | nil =>
          constructor
          · intro _
            exact ⟨[], [], rfl⟩
          · intro _
            rfl
      | cons n ns =>
          simp [jsIncludesAux]
  | cons a t ih =>
      intro need
      cases need with
      | nil =>
          constructor
          · intro _
            exact ⟨[], a :: t, rfl⟩
          · intro _
            rfl
      | cons n ns =>
          simp only [jsIncludesAux, Bool.or_eq_true, List.isPrefixOf_iff_prefix,
            ih (n :: ns)]
          constructor
          · rintro (⟨post, hp⟩ | ⟨pre, post, hp⟩)
            · exact ⟨[], post, by simpa using hp⟩
            · exact ⟨a :: pre, post, by simp [hp]⟩
          · rintro ⟨pre, post, hp⟩
            cases pre with
            | nil =>
                exact Or.inl ⟨post, by simpa using hp⟩
            | cons b bs =>
                simp only [List.cons_append, List.cons.injEq] at hp
                exact Or.inr ⟨bs, post, hp.2⟩

theorem isWeak_iff (pwd : String) :
    isWeak pwd = true ↔ ∃ w ∈ weakPasswordDatabase,
      ∃ pre post : List Char,
        pre ++ (jsToLower w).toList ++ post = (jsToLower pwd).toList := by
  simp only [isWeak, List.any_eq_true, jsIncludes, jsIncludesAux_iff]

/-- C6: the weak-pattern precheck returns true exactly when some catalog
entry is a case-insensitive substring of the password; a matching cycle logs
the warning line right after the analyzing line and before every
response-derived line, and the precheck neither blocks the remote call (the
call trace always grows by `pwd`) nor alters the outcome (the final strength
is a function of the response and the prior strength only). -/
theorem c6_weak_precheck (pwd : String) (resp : FetchResult CheckData)
    (st : AppState) :
    (isWeak pwd = true ↔ ∃ w ∈ weakPasswordDatabase,
        ∃ pre post : List Char,
          pre ++ (jsToLower w).toList ++ post = (jsToLower pwd).toList) ∧
    (checkPasswordStrength pwd resp st).calls = st.calls ++ [pwd] ∧
    (checkPasswordStrength pwd resp st).strength =
      strengthAfter resp st.strength ∧
    (isWeak pwd = true →
      (checkPasswordStrength pwd resp st).terminalLines =
        st.terminalLines ++ [analyzingLine pwd, breachWarnLine] ++
          responseLines pwd resp) := by
  refine ⟨isWeak_iff pwd, checkPasswordStrength_calls pwd resp st,
          checkPasswordStrength_strength pwd resp st, ?_⟩
  intro hw
  rw [checkPasswordStrength_lines]
  simp [hw]

/-- C6 witness: `"password123"` matches the catalog entry `"password"`; the
warning line is logged before the response lines and the remote call is still
issued. -/
theorem c6_weak_precheck_witness :
    isWeak "password123" = true ∧
    (checkPasswordStrength "password123"
        (FetchResult.ok ⟨none, 0, "CRITICAL", some ["Add symbols"]⟩)
        initState).terminalLines =
      [analyzingLine "password123", breachWarnLine] ++
        responseLines "password123"
          (FetchResult.ok ⟨none, 0, "CRITICAL", some ["Add symbols"]⟩) ∧
    (checkPasswordStrength "password123"
        (FetchResult.ok ⟨none, 0, "CRITICAL", some ["Add symbols"]⟩)
        initState).calls = ["password123"] := by
  have h := c6_weak_precheck "password123"
    (FetchResult.ok ⟨none, 0, "CRITICAL", some ["Add symbols"]⟩) initState
  refine ⟨by decide, ?_, ?_⟩
  · have hl := h.2.2.2 (by decide)
    simpa using hl
  · simpa using h.2.1

/-- Pending debounce timer of the analysis `useEffect` (line 245): the fire
deadline `t + 500` and the password text captured when it was armed. -/
def onChange (t : Nat) (p : String) (_d : Option (Nat × String)) :
    Option (Nat × String) :=
  some (t + 500, p)

/-- Replay a chronological list of password-text changes starting from
pending timer `d`, observing until `endT`.  Each change runs the effect
cleanup (`clearTimeout`, cancelling `d`) and arms a fresh timer via
`onChange`; a pending timer fires when its deadline precedes the next change
(or the end of observation).  Returns the firings as
`(fire time, password text at firing)` pairs. -/
def runChanges (d : Option (Nat × String)) :
    List (Nat × String) → Nat → List (Nat × String)
  | [], endT =>
      match d with
      | some (f, p) => if f ≤ endT then [(f, p)] else []
      | none => []
  | (t, p) :: rest, endT =>
      (match d with
       | some (f, q) => if f ≤ t then [(f, q)] else []
       | none => []) ++ runChanges (onChange t p d) rest endT

/-- Firings whose captured text is nonempty issue the remote `/api/check`
call (line 246); an empty-text firing only resets the strength locally. -/
def callsOf (fires : List (Nat × String)) : List (Nat × String) :=
  fires.filter fun fp => fp.2 != ""

/-- Chain condition for a burst of changes after a change at time `t`: each
subsequent change comes strictly later than, and within 500ms of, the
previous one. -/
def rapidFrom (t : Nat) : List (Nat × String) → Bool
  | [] => true
  | (t2, _) :: rest =>
      decide (t < t2) && decide (t2 < t + 500) && rapidFrom t2 rest

/-- Last change of a burst, with the first change as default. -/
def lastChange (c : Nat × String) : List (Nat × String) → Nat × String
  | [] => c
  | c2 :: rest => lastChange c2 rest

theorem runChanges_rapid (cs : List (Nat × String)) :
    ∀ (t : Nat) (p : String) (endT : Nat),
      rapidFrom t cs = true →
      (lastChange (t, p) cs).1 + 500 ≤ endT →
      runChanges (some (t + 500, p)) cs endT =
        [((lastChange (t, p) cs).1 + 500, (lastChange (t, p) cs).2)] := by
  induction cs with
  | nil =>
      intro t p endT _ hend
      simp only [lastChange] at hend ⊢
      simp [runChanges, hend]
  | cons c rest ih =>
      intro t p endT hrapid hend
      obtain ⟨t2, p2⟩ := c
      simp only [rapidFrom, Bool.and_eq_true, decide_eq_true_eq] at hrapid
      obtain ⟨⟨h1, h2⟩, h3⟩ := hrapid
      simp only [lastChange] at hend ⊢
      simp only [runChanges, onChange]
      rw [if_neg (by omega : ¬ t + 500 ≤ t2)]
      simp only [List.nil_append]
      exact ih t2 p2 endT h3 hend

/-- C5 (amended): during a burst of changes each at most 500ms after the
previous, every change cancels the pending timer and re-arms a single fresh
500ms timer (so no two are live), and exactly one debounce firing results,
500ms after the last change; that firing issues exactly one remote
`/api/check` call when the final text is nonempty and none when the final
text is empty. -/
theorem c5_debounce (t0 : Nat) (p0 : String) (cs : List (Nat × String))
    (endT : Nat) (hrapid : rapidFrom t0 cs = true)
    (hend : (lastChange (t0, p0) cs).1 + 500 ≤ endT) :
    (∀ (t : Nat) (p : String) (d : Option (Nat × String)),
        onChange t p d = some (t + 500, p)) ∧
    runChanges none ((t0, p0) :: cs) endT =
      [((lastChange (t0, p0) cs).1 + 500, (lastChange (t0, p0) cs).2)] ∧
    ((lastChange (t0, p0) cs).2 ≠ "" →
      callsOf (runChanges none ((t0, p0) :: cs) endT) =
        [((lastChange (t0, p0) cs).1 + 500, (lastChange (t0, p0) cs).2)]) ∧
    ((lastChange (t0, p0) cs).2 = "" →
      callsOf (runChanges none ((t0, p0) :: cs) endT) = []) := by
  have hfires : runChanges none ((t0, p0) :: cs) endT =
      [((lastChange (t0, p0) cs).1 + 500, (lastChange (t0, p0) cs).2)] := by
    simp only [runChanges, onChange, List.nil_append]
    exact runChanges_rapid cs t0 p0 endT hrapid hend
  refine ⟨fun t p d => rfl, hfires, ?_, ?_⟩
  · intro hne
    rw [hfires]
    simp [callsOf, hne]
  · intro hemp
    rw [hfires]
    simp [callsOf, hemp]

/-- C5 witness: two changes 300ms apart with nonempty final text produce one
firing at 800ms carrying one remote call. -/
theorem c5_debounce_witness :
    runChanges none [(0, "a"), (300, "ab")] 1000 = [(800, "ab")] ∧
    callsOf (runChanges none [(0, "a"), (300, "ab")] 1000) = [(800, "ab")] := by
  have h := c5_debounce 0 "a" [(300, "ab")] 1000 (by decide) (by decide)
  exact ⟨by simpa using h.2.1, by simpa using h.2.2.1 (by decide)⟩

/-- C5 counterexample: a rapid burst whose last change clears the text
produces zero remote calls, not exactly one. -/
theorem c5_counterexample :
    rapidFrom 0 [(300, "")] = true ∧
    callsOf (runChanges none [(0, "a"), (300, "")] 1000) = [] := by
  decide

/-- C7: a successful (error-free) `generate()` carrying password `P` sets
both the generated value and the password text to `P`, and the debounce
transition for the resulting text is exactly the transition a keystroke with
the same text makes — a fresh timer 500ms after the change; an error-field or
transport failure appends the start and failure log lines and changes no
other state. -/
theorem c7_generate (st : AppState) (P : String) :
    (generateSecurePassword (.ok ⟨none, P⟩) st).generated = P ∧
    (generateSecurePassword (.ok ⟨none, P⟩) st).password = P ∧
    (∀ (t : Nat) (d : Option (Nat × String)),
        onChange t (generateSecurePassword (.ok ⟨none, P⟩) st).password d =
          some (t + 500, P) ∧
        onChange t (generateSecurePassword (.ok ⟨none, P⟩) st).password d =
          onChange t P d) ∧
    (∀ e : String, e ≠ "" →
        generateSecurePassword (.ok ⟨some e, P⟩) st =
          { st with terminalLines :=
              st.terminalLines ++ [genStartLine, genFailLine e] }) ∧
    (∀ msg : String,
        generateSecurePassword (.fail msg) st =
          { st with terminalLines :=
              st.terminalLines ++ [genStartLine, genFailLine msg] }) := by
  refine ⟨rfl, rfl, fun t d => ⟨rfl, rfl⟩, ?_, ?_⟩
  · intro e he
    simp [generateSecurePassword, jsTruthy, he]
  · intro msg
    simp [generateSecurePassword]

/-- C7 witness: the scenario password, on the success and the error paths. -/
theorem c7_generate_witness :
    (generateSecurePassword (FetchResult.ok ⟨none, "Xk9#mQ2vLp!7"⟩)
        initState).generated = "Xk9#mQ2vLp!7" ∧
    (generateSecurePassword (FetchResult.ok ⟨none, "Xk9#mQ2vLp!7"⟩)
        initState).password = "Xk9#mQ2vLp!7" ∧
    generateSecurePassword (FetchResult.ok ⟨some "rate limited", "Xk9#mQ2vLp!7"⟩)
        initState =
      { initState with terminalLines :=
          [genStartLine, genFailLine "rate limited"] } := by
  have h := c7_generate initState "Xk9#mQ2vLp!7"
  exact ⟨h.1, h.2.1, by simpa using h.2.2.2.1 "rate limited" (by decide)⟩

theorem applyEvent_generated (s : AppState) (e : Event)
    (h : genSucceeds e = false) :
    (applyEvent s e).generated = s.generated := by
  cases e with
  | keystroke p => rfl
  | debounce resp =>
      simp only [applyEvent, debounceFire]
      split
      · exact checkPasswordStrength_generated _ _ _
      · rfl
  | generate resp =>
      cases resp with
      | fail msg => rfl
      | ok data =>
          simp only [genSucceeds, Bool.not_eq_false'] at h
          simp [applyEvent, generateSecurePassword, h]

theorem run_generated_const :
    ∀ (evs : List Event) (s : AppState),
      (∀ e ∈ evs, genSucceeds e = false) →
      (run s evs).generated = s.generated := by
  intro evs
  induction evs with
  | nil => intro s _; rfl
  | cons e rest ih =>
      intro s h
      have he : genSucceeds e = false := h e (List.mem_cons_self e rest)
      have hrest : ∀ x ∈ rest, genSucceeds x = false :=
        fun x hx => h x (List.mem_cons_of_mem e hx)
      show (run (applyEvent s e) rest).generated = s.generated
      rw [ih (applyEvent s e) hrest, applyEvent_generated s e he]

/-- C10: the generated value is modified only by a successful `generate()`;
keystrokes (including clearing the text) and debounce analysis cycles leave
it untouched, so after a successful `generate()` of `P` followed by any
sequence of events containing no further successful `generate()`, the
generated value still holds `P`. -/
theorem c10_generated_frame (st : AppState) (P : String) (evs : List Event)
    (hs : ∀ e ∈ evs, genSucceeds e = false) :
    (∀ (s : AppState) (e : Event), genSucceeds e = false →
        (applyEvent s e).generated = s.generated) ∧
    (run (applyEvent st (Event.generate (FetchResult.ok ⟨none, P⟩)))
        evs).generated = P := by
  refine ⟨fun s e h => applyEvent_generated s e h, ?_⟩
  rw [run_generated_const evs _ hs]
  rfl

/-- C10 witness: a successful generation followed by typing, analysis cycles
(successful and failing), clearing the text, and a failed generation. -/
theorem c10_generated_frame_witness :
    (run (applyEvent initState
          (Event.generate (FetchResult.ok ⟨none, "Xk9#mQ2vLp!7"⟩)))
        [Event.keystroke "abc",
         Event.debounce (FetchResult.ok ⟨none, 2, "FAIR", some ["longer"]⟩),
         Event.keystroke "",
         Event.debounce (FetchResult.fail "offline"),
         Event.generate (FetchResult.fail "offline")]).generated =
      "Xk9#mQ2vLp!7" :=
  (c10_generated_frame initState "Xk9#mQ2vLp!7"
    [Event.keystroke "abc",
     Event.debounce (FetchResult.ok ⟨none, 2, "FAIR", some ["longer"]⟩),
     Event.keystroke "",
     Event.debounce (FetchResult.fail "offline"),
     Event.generate (FetchResult.fail "offline")] (by decide)).2

/-- Attack-feed entry synthesized by the 2s ticker (lines 100-107). -/
structure AttackEvent where
  ty : String
  origin : String
  target : String
  severity : String
  id : Nat
  timestamp : String
  attempts : Nat
  blocked : Bool
  deriving DecidableEq

/-- Live-check entry synthesized by the 4s ticker (lines 118-131). -/
structure LiveCheckEvent where
  password : String
  result : String
  reason : String
  location : String
  id : Nat
  timestamp : String
  deriving DecidableEq

/-- Line 109: `setAttackData(prev => [newAttack, ...prev].slice(0, 10))`. -/
def pushAttack (e : AttackEvent) (buf : List AttackEvent) : List AttackEvent :=
  (e :: buf).take 10

/-- Line 133: `setLiveChecks(prev => [newCheck, ...prev].slice(0, 5))`. -/
def pushLiveCheck (e : LiveCheckEvent) (buf : List LiveCheckEvent) :
    List LiveCheckEvent :=
  (e :: buf).take 5

/-- Buffer reached after the attack-feed ticker has produced `evs` (in
chronological order), starting from the initial empty buffer. -/
def attackFeedRun (evs : List AttackEvent) : List AttackEvent :=
  evs.foldl (fun buf e => pushAttack e buf) []

/-- Buffer reached after the live-check ticker has produced `evs`. -/
def liveCheckRun (evs : List LiveCheckEvent) : List LiveCheckEvent :=
  evs.foldl (fun buf e => pushLiveCheck e buf) []

theorem take_append_take {α : Type} (l m : List α) (c : Nat) :
    (l ++ m.take c).take c = (l ++ m).take c := by
  rw [List.take_append_eq_append_take, List.take_append_eq_append_take,
    List.take_take, Nat.min_eq_left (Nat.sub_le c l.length)]

theorem pushTake_foldl {α : Type} (cap : Nat) :
    ∀ (evs acc : List α), acc.length ≤ cap →
      evs.foldl (fun buf e => (e :: buf).take cap) acc =
        (evs.reverse ++ acc).take cap := by
  intro evs
  induction evs with
  | nil =>
      intro acc hacc
      simp [List.take_of_length_le hacc]
  | cons e rest ih =>
      intro acc hacc
      rw [List.foldl_cons, ih ((e :: acc).take cap)
        (by simp)]
      rw [take_append_take, List.reverse_cons, List.append_assoc]
      rfl

/-- C8: the attack buffer never exceeds 10 entries and the live-check buffer
never exceeds 5; every reachable buffer equals the newest-first listing of
the most recent events; and an insertion into a full buffer evicts exactly
the oldest (last) element, leaving the relative order of the rest unchanged. -/
theorem c8_ring_buffers :
    (∀ evs : List AttackEvent, attackFeedRun evs = evs.reverse.take 10) ∧
    (∀ evs : List AttackEvent, (attackFeedRun evs).length ≤ 10) ∧
    (∀ evs : List LiveCheckEvent, liveCheckRun evs = evs.reverse.take 5) ∧
    (∀ evs : List LiveCheckEvent, (liveCheckRun evs).length ≤ 5) ∧
    (∀ (buf : List AttackEvent) (e : AttackEvent), buf.length = 10 →
        pushAttack e buf = e :: buf.dropLast) ∧
    (∀ (buf : List LiveCheckEvent) (e : LiveCheckEvent), buf.length = 5 →
        pushLiveCheck e buf = e :: buf.dropLast) := by
  have hA : ∀ evs : List AttackEvent, attackFeedRun evs = evs.reverse.take 10 := by
    intro evs
    have h := pushTake_foldl 10 evs ([] : List AttackEvent) (by simp)
    simpa [attackFeedRun] using h
  have hL : ∀ evs : List LiveCheckEvent, liveCheckRun evs = evs.reverse.take 5 := by
    intro evs
    have h := pushTake_foldl 5 evs ([] : List LiveCheckEvent) (by simp)
    simpa [liveCheckRun] using h
  refine ⟨hA, ?_, hL, ?_, ?_, ?_⟩
  · intro evs
    rw [hA evs]
    simp
  · intro evs
    rw [hL evs]
    simp
  · intro buf e hlen
    simp [pushAttack, List.dropLast_eq_take, hlen]
  · intro buf e hlen
    simp [pushLiveCheck, List.dropLast_eq_take, hlen]

/-- Sample telemetry entries for the C8 witness. -/
def sampleAttack : AttackEvent :=
  ⟨"Brute Force", "Russia", "Banking", "HIGH", 0, "00:00:00", 1000, true⟩

def sampleCheck : LiveCheckEvent :=
  ⟨"P@ssw0rd!", "WEAK", "Common pattern", "USA", 0, "00:00:00"⟩

/-- C8 witness: inserting into full buffers evicts exactly the oldest entry. -/
theorem c8_ring_buffers_witness :
    pushAttack sampleAttack (List.replicate 10 sampleAttack) =
      sampleAttack :: (List.replicate 10 sampleAttack).dropLast ∧
    pushLiveCheck sampleCheck (List.replicate 5 sampleCheck) =
      sampleCheck :: (List.replicate 5 sampleCheck).dropLast :=
  ⟨c8_ring_buffers.2.2.2.2.1 (List.replicate 10 sampleAttack) sampleAttack
     (by simp),
   c8_ring_buffers.2.2.2.2.2 (List.replicate 5 sampleCheck) sampleCheck
     (by simp)⟩

/-- Global statistics cell (lines 14-19). -/
structure GlobalStats where
  attacksToday : Nat
  passwordsCompromised : Nat
  activeThreats : Nat
  weakPasswords : Nat
  deriving DecidableEq

/-- Lines 85-96: one 3s stats tick.  `r1 r2 r3 r4` are the four floored
`Math.random()` draws, bounded by construction:
`Math.floor(Math.random() * 1000) : Fin 1000`, etc. -/
def globalStatsTick (r1 : Fin 1000) (r2 : Fin 50) (r3 : Fin 500)
    (r4 : Fin 1000000) (prev : GlobalStats) : GlobalStats :=
  { attacksToday := prev.attacksToday + r1.val,
    passwordsCompromised := prev.passwordsCompromised + r2.val,
    activeThreats := r3.val + 1000,
    weakPasswords := r4.val + 5000000 }

/-- C9: on every tick `attacksToday` and `passwordsCompromised` grow by the
fresh draws (so they are monotone across a run), while `activeThreats` and
`weakPasswords` are resampled into [1000,1499] and [5000000,5999999]
independently of the previous state, and across two consecutive ticks each of
the resampled fields can both decrease and increase. -/
theorem c9_global_stats (prev : GlobalStats) (r1 : Fin 1000) (r2 : Fin 50)
    (r3 : Fin 500) (r4 : Fin 1000000) :
    (globalStatsTick r1 r2 r3 r4 prev).attacksToday =
        prev.attacksToday + r1.val ∧
    prev.attacksToday ≤ (globalStatsTick r1 r2 r3 r4 prev).attacksToday ∧
    (globalStatsTick r1 r2 r3 r4 prev).passwordsCompromised =
        prev.passwordsCompromised + r2.val ∧
    prev.passwordsCompromised ≤
        (globalStatsTick r1 r2 r3 r4 prev).passwordsCompromised ∧
    1000 ≤ (globalStatsTick r1 r2 r3 r4 prev).activeThreats ∧
    (globalStatsTick r1 r2 r3 r4 prev).activeThreats ≤ 1499 ∧
    5000000 ≤ (globalStatsTick r1 r2 r3 r4 prev).weakPasswords ∧
    (globalStatsTick r1 r2 r3 r4 prev).weakPasswords ≤ 5999999 ∧
    (∀ other : GlobalStats,
        (globalStatsTick r1 r2 r3 r4 other).activeThreats =
          (globalStatsTick r1 r2 r3 r4 prev).activeThreats ∧
        (globalStatsTick r1 r2 r3 r4 other).weakPasswords =
          (globalStatsTick r1 r2 r3 r4 prev).weakPasswords) ∧
    (∃ a b : Fin 500,
        (globalStatsTick r1 r2 b r4 (globalStatsTick r1 r2 a r4 prev)).activeThreats <
          (globalStatsTick r1 r2 a r4 prev).activeThreats) ∧
    (∃ a b : Fin 500,
        (globalStatsTick r1 r2 a r4 prev).activeThreats <
          (globalStatsTick r1 r2 b r4 (globalStatsTick r1 r2 a r4 prev)).activeThreats) ∧
    (∃ a b : Fin 1000000,
        (globalStatsTick r1 r2 r3 b (globalStatsTick r1 r2 r3 a prev)).weakPasswords <
          (globalStatsTick r1 r2 r3 a prev).weakPasswords) ∧
    (∃ a b : Fin 1000000,
        (globalStatsTick r1 r2 r3 a prev).weakPasswords <
          (globalStatsTick r1 r2 r3 b (globalStatsTick r1 r2 r3 a prev)).weakPasswords) := by
  have h3 := r3.isLt
  have h4 := r4.isLt
  refine ⟨rfl, by simp [globalStatsTick], rfl, by simp [globalStatsTick],
          by simp [globalStatsTick], by simp [globalStatsTick]; omega,
          by simp [globalStatsTick], by simp [globalStatsTick]; omega,
          fun other => ⟨rfl, rfl⟩, ?_, ?_, ?_, ?_⟩
  · exact ⟨⟨499, by decide⟩, ⟨0, by decide⟩, by simp [globalStatsTick]⟩
  · exact ⟨⟨0, by decide⟩, ⟨499, by decide⟩, by simp [globalStatsTick]⟩
  · exact ⟨⟨999999, by decide⟩, ⟨0, by decide⟩, by simp [globalStatsTick]⟩
  · exact ⟨⟨0, by decide⟩, ⟨999999, by decide⟩, by simp [globalStatsTick]⟩

end QuantumShield
